import Mathlib

/-!
Verification of the rome traversal/rule/fix core against its specification.

Shallow embedding of:
- the two self-closing lint rules in `src/packages/commit-parser/changelog.ts`
  (the sections `html/preferSelfClosing` and `astAddSelfClosing`),
- the `TSTypeParameter` printer function in `src/unnamed/part_000`,
- the `raiseError` and `isNewVersion`/`main` step-4 logic of the changelog
  script in `src/packages/commit-parser/changelog.ts`.

Stateful context passing (`path.context.addFixableDiagnostic`) is embedded as
explicit state passing of a `RuleContext` value; JavaScript truthiness of an
un-awaited Promise is embedded by the `JSValue` type.
-/

/-- Element/JSX node as observed by the self-closing rules: `type` is the
`node.type` string tag, `name` models `node.name.name` (the tag name),
`selfClosing` the boolean flag, `attrs` stands for the remaining fields copied
verbatim by the object spread, and `children` the ordered child list. -/
inductive HNode where
  | mk (type : String) (name : String) (selfClosing : Bool)
      (attrs : List String) (children : List HNode)

/-- Projection of the `type` field. -/
def HNode.type : HNode → String
  | .mk t _ _ _ _ => t

/-- Projection of the tag name (`node.name.name`). -/
def HNode.name : HNode → String
  | .mk _ n _ _ _ => n

/-- Projection of the `selfClosing` flag. -/
def HNode.selfClosing : HNode → Bool
  | .mk _ _ s _ _ => s

/-- Projection of the remaining (spread-copied) fields. -/
def HNode.attrs : HNode → List String
  | .mk _ _ _ a _ => a

/-- Projection of the child list. -/
def HNode.children : HNode → List HNode
  | .mk _ _ _ _ c => c

/-- Embedding of the object spread `{...node, selfClosing: b}`: every field
other than `selfClosing` is carried over unchanged (the very same values, in
particular the same `children` list). -/
def HNode.withSelfClosing : HNode → Bool → HNode
  | .mk t n _ a c, b => .mk t n b a c

/-- FixSuggestion as passed to `addFixableDiagnostic`: the `old` node and the
proposed `fixed` replacement. -/
structure FixSuggestion where
  old : HNode
  fixed : HNode

/-- One collected diagnostic: its category id, whether it carries a fix, and
the recorded fix suggestion when present. -/
structure Diagnostic where
  category : String
  hasFix : Bool
  fix : Option FixSuggestion

/-- The part of the compiler context the rules interact with: the apply-fixes
configuration flag and the append-only diagnostics list of the pass. -/
structure RuleContext where
  applyFixes : Bool
  diagnostics : List Diagnostic

/-- Modelled from the spec: `addFixableDiagnostic` of the DiagnosticCollector
(`@romefrontend/compiler`, not under src/). Per section 4.4 it always records
the diagnostic and the candidate FixSuggestion; in describe-only mode it
returns `patch.old` unchanged; in apply-fixes mode it returns `patch.fixed`
immediately. -/
def addFixableDiagnostic (ctx : RuleContext) (patch : FixSuggestion)
    (category : String) : HNode × RuleContext :=
  (if ctx.applyFixes then patch.fixed else patch.old,
    { ctx with
      diagnostics :=
        ctx.diagnostics ++ [⟨category, true, some patch⟩] })

/-- The `voidElements` set of `html/preferSelfClosing`. -/
def voidElements : List String :=
  ["area", "base", "br", "col", "embed", "hr", "img", "input", "link",
    "meta", "param", "source", "track", "wbr"]

/-- Guard of `html/preferSelfClosing`: the node is an HTMLElement, its tag is
in the void-element set, it is not self-closing and it has zero children. -/
def preferSelfClosingCond (node : HNode) : Bool :=
  node.type == "HTMLElement" && voidElements.contains node.name &&
    !node.selfClosing && node.children.length == 0

/-- Guard of `astAddSelfClosing`: the node is a JSXElement or HTMLElement, it
is not self-closing and it has zero children. -/
def astAddSelfClosingCond (node : HNode) : Bool :=
  (node.type == "JSXElement" || node.type == "HTMLElement") &&
    !node.selfClosing && node.children.length == 0

/-- Enter callback of the `html/preferSelfClosing` rule: when its guard
holds, it returns the result of `addFixableDiagnostic` with the spread-fixed
node; otherwise it returns the node with the context untouched. -/
def preferSelfClosingEnter (ctx : RuleContext) (node : HNode) :
    HNode × RuleContext :=
  if preferSelfClosingCond node then
    addFixableDiagnostic ctx
      { old := node, fixed := node.withSelfClosing true }
      "HTML_PREFER_SELF_CLOSING"
  else
    (node, ctx)

/-- Enter callback of the `astAddSelfClosing` rule: when its guard holds, it
calls `addFixableDiagnostic` but discards the node that call returns, and in
every case returns the original `node` (the final `return node` of the
source). -/
def astAddSelfClosingEnter (ctx : RuleContext) (node : HNode) :
    HNode × RuleContext :=
  if astAddSelfClosingCond node then
    (node,
      (addFixableDiagnostic ctx
        { old := node, fixed := node.withSelfClosing true }
        "AST_ADD_SELF_CLOSING").2)
  else
    (node, ctx)

mutual

/-- Structural equality of nodes, computed recursively field by field.
Section 4.1 specifies deep structural equality with pure value semantics and
no identity-based comparison. -/
def HNode.structEq : HNode → HNode → Bool
  | .mk t1 n1 s1 a1 c1, .mk t2 n2 s2 a2 c2 =>
    t1 == t2 && n1 == n2 && s1 == s2 && a1 == a2 &&
      HNode.structEqList c1 c2

/-- Pointwise structural equality of child lists. -/
def HNode.structEqList : List HNode → List HNode → Bool
  | [], [] => true
  | x :: xs, y :: ys => HNode.structEq x y && HNode.structEqList xs ys
  | _, _ => false

end

/-- Token documents produced by the printer: string literals, the space
separator, and ordered concatenation (`Token`, `space`, `concat` of
`../../tokens`). -/
inductive Token where
  | text (s : String)
  | space
  | concat (ts : List Token)

/-- TSTypeParameter node shape: a name, an optional constraint and an optional
default; the constraint and default are child nodes of an abstract type `α`
handed back to the builder for recursive tokenization. -/
structure TSTypeParameterNode (α : Type) where
  name : String
  constraint : Option α
  default : Option α

/-- Embedding of the `TSTypeParameter` builder function of
`src/unnamed/part_000`: `tk` stands for `builder.tokenize`, applied to a child
node and the parent passed as context. The list mirrors the `tokens.push`
sequence of the source. -/
def TSTypeParameterToken {α : Type}
    (tk : α → TSTypeParameterNode α → Token)
    (node : TSTypeParameterNode α) : Token :=
  let tokens : List Token := [Token.text node.name]
  let tokens :=
    match node.constraint with
    | some c =>
      tokens ++ [Token.space, Token.text "extends", Token.space, tk c node]
    | none => tokens
  let tokens :=
    match node.default with
    | some d =>
      tokens ++ [Token.space, Token.text "=", Token.space, tk d node]
    | none => tokens
  Token.concat tokens

/-- Statement-side rendition of claim C6, written from the claim words: the
concatenation of the name, then exactly when a constraint is present a space,
`extends`, a space and the recursive tokenization of the constraint with the
node as parent, then exactly when a default is present a space, `=`, a space
and the recursive tokenization of the default with the node as parent. -/
def TSTypeParameterClaimed {α : Type}
    (tk : α → TSTypeParameterNode α → Token)
    (node : TSTypeParameterNode α) : Token :=
  Token.concat
    ([Token.text node.name] ++
      (node.constraint.elim []
        (fun c =>
          [Token.space, Token.text "extends", Token.space, tk c node])) ++
      (node.default.elim []
        (fun d => [Token.space, Token.text "=", Token.space, tk d node])))

/-- JavaScript values as far as the changelog script guard needs them: a
boolean, or a Promise object (whose eventually resolved boolean is carried for
reference but is irrelevant to truthiness). -/
inductive JSValue where
  | boolVal (b : Bool)
  | promiseVal (resolved : Bool)

/-- JavaScript truthiness: a boolean is its own truth value; a Promise is an
object and objects are always truthy. -/
def JSValue.truthy : JSValue → Bool
  | .boolVal b => b
  | .promiseVal _ => true

/-- Resolved boolean of `isNewVersion`: false when the registry status code is
not 404, true otherwise (the body of `isNewVersion` after the await). -/
def isNewVersionResolved (statusCode : Nat) : Bool :=
  if statusCode != 404 then false else true

/-- Value of the expression `isNewVersion(newVersion)` as used in `main` step
4: the call is not awaited, so the expression is the Promise object itself,
not its resolved boolean. -/
def isNewVersionCall (statusCode : Nat) : JSValue :=
  JSValue.promiseVal (isNewVersionResolved statusCode)

/-- Guard of the step-4 `if (!isNewVersion(newVersion))` in `main`: JavaScript
negation of the un-awaited call. -/
def mainStep4Raises (statusCode : Nat) : Bool :=
  !(JSValue.truthy (isNewVersionCall statusCode))

/-- Observable effects of one `raiseError` call: the text handed to
`REPORTER.error` and whether `process.exit(1)` runs. -/
structure RaiseErrorEffect where
  reportedText : String
  processExited : Bool

/-- Embedding of `raiseError(message, keepAlive)`: the reporter is always
handed the fixed markup literal, and `!keepAlive && process.exit(1)` exits
exactly when `keepAlive` is false. The `message` parameter is accepted and
never used, as in the source. -/
def raiseError (message : String) (keepAlive : Bool) : RaiseErrorEffect :=
  { reportedText := "Changelogs must be generated on the main branch.",
    processExited := !keepAlive }

/-- The `<img>` node of Scenario 1: an HTMLElement named `img`, not
self-closing, with no children. -/
def imgNode : HNode :=
  HNode.mk "HTMLElement" "img" false ["src"] []

/-- The `<div></div>` node of Scenario 2: an HTMLElement named `div`, not
self-closing, with no children. -/
def divNode : HNode :=
  HNode.mk "HTMLElement" "div" false [] []

/-- A `<span></span>` JSX element, not self-closing, with no children. -/
def spanJsxNode : HNode :=
  HNode.mk "JSXElement" "span" false [] []

/-- An already self-closing `<br />` node. -/
def brClosedNode : HNode :=
  HNode.mk "HTMLElement" "br" true [] []

mutual

/-- Soundness of the computed structural equality: nodes it accepts are equal
as values. -/
theorem HNode.structEq_sound : (a b : HNode) → HNode.structEq a b = true →
    a = b
  | .mk t1 n1 s1 a1 c1, .mk t2 n2 s2 a2 c2, h => by
    simp only [HNode.structEq, Bool.and_eq_true, beq_iff_eq] at h
    obtain ⟨⟨⟨⟨ht, hn⟩, hs⟩, ha⟩, hc⟩ := h
    have hcc := HNode.structEqList_sound c1 c2 hc
    subst ht hn hs ha hcc
    rfl

/-- Soundness of the computed structural equality on child lists. -/
theorem HNode.structEqList_sound : (xs ys : List HNode) →
    HNode.structEqList xs ys = true → xs = ys
  | [], [], _ => rfl
  | x :: xs, y :: ys, h => by
    simp only [HNode.structEqList, Bool.and_eq_true] at h
    rw [HNode.structEq_sound x y h.1, HNode.structEqList_sound xs ys h.2]
  | [], _ :: _, h => by simp [HNode.structEqList] at h
  | _ :: _, [], h => by simp [HNode.structEqList] at h

end

mutual

/-- Structural equality is reflexive. -/
theorem HNode.structEq_refl : (a : HNode) → HNode.structEq a a = true
  | .mk t n s a c => by
    have hc := HNode.structEqList_refl c
    simp [HNode.structEq, hc]

/-- Structural equality on child lists is reflexive. -/
theorem HNode.structEqList_refl : (xs : List HNode) →
    HNode.structEqList xs xs = true
  | [] => rfl
  | x :: xs => by
    simp only [HNode.structEqList, Bool.and_eq_true]
    exact ⟨HNode.structEq_refl x, HNode.structEqList_refl xs⟩

end

/-- Equality of nodes is decidable via the computed structural equality. -/
instance : DecidableEq HNode := fun a b =>
  if h : HNode.structEq a b = true then
    isTrue (HNode.structEq_sound a b h)
  else
    isFalse (fun he => h (he ▸ HNode.structEq_refl a))

/-- Equality of fix suggestions is decidable componentwise. -/
instance : DecidableEq FixSuggestion := fun a b =>
  if h : a.old = b.old ∧ a.fixed = b.fixed then
    isTrue (by cases a; cases b; simp_all)
  else
    isFalse (fun he => h (by cases he; exact ⟨rfl, rfl⟩))

/-- Equality of diagnostics is decidable componentwise. -/
instance : DecidableEq Diagnostic := fun a b =>
  if h : a.category = b.category ∧ a.hasFix = b.hasFix ∧ a.fix = b.fix then
    isTrue (by cases a; cases b; simp_all)
  else
    isFalse (fun he => h (by cases he; exact ⟨rfl, rfl, rfl⟩))

/-- Equality of rule contexts is decidable componentwise. -/
instance : DecidableEq RuleContext := fun a b =>
  if h : a.applyFixes = b.applyFixes ∧ a.diagnostics = b.diagnostics then
    isTrue (by cases a; cases b; simp_all)
  else
    isFalse (fun he => h (by cases he; exact ⟨rfl, rfl⟩))

/-- Every diagnostic either self-closing rule appends to an initially empty
diagnostics list carries the fix suggestion whose old node is the rule's input
node and whose fixed node is the input with `selfClosing` set to true. -/
theorem emittedDiag_fix_shape (mode : Bool) (node : HNode) (d : Diagnostic)
    (hd : d ∈ (preferSelfClosingEnter ⟨mode, []⟩ node).2.diagnostics ∨
      d ∈ (astAddSelfClosingEnter ⟨mode, []⟩ node).2.diagnostics) :
    d.fix = some ⟨node, node.withSelfClosing true⟩ := by
  rcases hd with hd | hd
  · by_cases hc : preferSelfClosingCond node = true
    · simp [preferSelfClosingEnter, addFixableDiagnostic, hc] at hd
      subst hd; rfl
    · rw [Bool.not_eq_true] at hc
      simp [preferSelfClosingEnter, hc] at hd
  · by_cases hc : astAddSelfClosingCond node = true
    · simp [astAddSelfClosingEnter, addFixableDiagnostic, hc] at hd
      subst hd; rfl
    · rw [Bool.not_eq_true] at hc
      simp [astAddSelfClosingEnter, hc] at hd

/-- C1: for every HTMLElement whose tag is in the void-element set, with zero
children and `selfClosing` false, running `html/preferSelfClosing` with
`applyFixes` true emits exactly one fixable `HTML_PREFER_SELF_CLOSING`
diagnostic and the enter callback returns the node with `selfClosing` true
(the parse of the self-closed tag); any node not meeting all of these
conditions yields no diagnostic and the node unchanged. -/
theorem claim_C1_preferSelfClosing (node : HNode) (ds : List Diagnostic) :
    (preferSelfClosingCond node = true →
      preferSelfClosingEnter ⟨true, ds⟩ node =
        (node.withSelfClosing true,
          ⟨true, ds ++ [⟨"HTML_PREFER_SELF_CLOSING", true,
            some ⟨node, node.withSelfClosing true⟩⟩]⟩)) ∧
    (preferSelfClosingCond node = false →
      preferSelfClosingEnter ⟨true, ds⟩ node = (node, ⟨true, ds⟩)) := by
  constructor
  · intro h
    simp [preferSelfClosingEnter, addFixableDiagnostic, h]
  · intro h
    simp [preferSelfClosingEnter, h]

/-- Witness for C1 at the `<img>` node of Scenario 1. -/
theorem claim_C1_witness :
    preferSelfClosingCond imgNode = true ∧
    preferSelfClosingEnter ⟨true, []⟩ imgNode =
      (imgNode.withSelfClosing true,
        ⟨true, [⟨"HTML_PREFER_SELF_CLOSING", true,
          some ⟨imgNode, imgNode.withSelfClosing true⟩⟩]⟩) :=
  ⟨by decide, (claim_C1_preferSelfClosing imgNode []).1 (by decide)⟩

/-- C2 counterexample: on `<div></div>` with `applyFixes` true, the
`astAddSelfClosing` enter callback records the fixable diagnostic but yields
the original node, which is not the corrected self-closing node the claim
asserts. -/
theorem claim_C2_counterexample :
    (astAddSelfClosingEnter ⟨true, []⟩ divNode).2.diagnostics =
      [⟨"AST_ADD_SELF_CLOSING", true,
        some ⟨divNode, divNode.withSelfClosing true⟩⟩] ∧
    (astAddSelfClosingEnter ⟨true, []⟩ divNode).1 = divNode ∧
    (astAddSelfClosingEnter ⟨true, []⟩ divNode).1 ≠
      divNode.withSelfClosing true := by
  refine ⟨rfl, rfl, ?_⟩
  decide

/-- C2 as amended: for every JSXElement or HTMLElement with zero children and
`selfClosing` false, running `astAddSelfClosing` with `applyFixes` true emits
one `AST_ADD_SELF_CLOSING` diagnostic carrying the self-closing fix, but the
value the rule yields to the traversal is the original node unchanged — the
rule discards the node returned by `addFixableDiagnostic`. -/
theorem claim_C2_astAddSelfClosing (node : HNode) (ds : List Diagnostic)
    (h : astAddSelfClosingCond node = true) :
    astAddSelfClosingEnter ⟨true, ds⟩ node =
      (node, ⟨true, ds ++ [⟨"AST_ADD_SELF_CLOSING", true,
        some ⟨node, node.withSelfClosing true⟩⟩]⟩) := by
  simp [astAddSelfClosingEnter, addFixableDiagnostic, h]

/-- Witness for the amended C2 at the `<div></div>` node of Scenario 2. -/
theorem claim_C2_witness :
    astAddSelfClosingCond divNode = true ∧
    astAddSelfClosingEnter ⟨true, []⟩ divNode =
      (divNode, ⟨true, [⟨"AST_ADD_SELF_CLOSING", true,
        some ⟨divNode, divNode.withSelfClosing true⟩⟩]⟩) :=
  ⟨by decide, claim_C2_astAddSelfClosing divNode [] (by decide)⟩

/-- C3 counterexample: on a childless non-self-closing JSX `<span>` element in
apply-fixes mode, `astAddSelfClosing` calls `addFixableDiagnostic` (one
diagnostic is recorded) yet the node it returns to the traversal is not
`patch.fixed`. -/
theorem claim_C3_counterexample :
    (astAddSelfClosingEnter ⟨true, []⟩ spanJsxNode).2.diagnostics.length =
      1 ∧
    (astAddSelfClosingEnter ⟨true, []⟩ spanJsxNode).2.applyFixes = true ∧
    (astAddSelfClosingEnter ⟨true, []⟩ spanJsxNode).1 ≠
      spanJsxNode.withSelfClosing true := by
  refine ⟨rfl, rfl, ?_⟩
  decide

/-- C3 as amended: in apply-fixes mode the `html/preferSelfClosing` enter
callback does return `patch.fixed` when it calls `addFixableDiagnostic`, but
the `astAddSelfClosing` enter callback discards the value returned by
`addFixableDiagnostic` and returns the original node, so downstream rules see
the unfixed shape from it. -/
theorem claim_C3_amended (node : HNode) (ds : List Diagnostic) :
    (preferSelfClosingCond node = true →
      (preferSelfClosingEnter ⟨true, ds⟩ node).1 =
        node.withSelfClosing true) ∧
    (astAddSelfClosingCond node = true →
      (astAddSelfClosingEnter ⟨true, ds⟩ node).1 = node) := by
  constructor <;> intro h <;>
    simp [preferSelfClosingEnter, astAddSelfClosingEnter,
      addFixableDiagnostic, h]

/-- Witness for the amended C3 at the `<img>` node, on which both rule guards
hold. -/
theorem claim_C3_witness :
    preferSelfClosingCond imgNode = true ∧
    astAddSelfClosingCond imgNode = true ∧
    (preferSelfClosingEnter ⟨true, []⟩ imgNode).1 =
      imgNode.withSelfClosing true ∧
    (astAddSelfClosingEnter ⟨true, []⟩ imgNode).1 = imgNode :=
  ⟨by decide, by decide,
    (claim_C3_amended imgNode []).1 (by decide),
    (claim_C3_amended imgNode []).2 (by decide)⟩

/-- C4: on a node that is already self-closing or has at least one child,
both self-closing rules emit zero diagnostics and return the input node with
the context untouched. -/
theorem claim_C4_noop (ctx : RuleContext) (node : HNode)
    (h : node.selfClosing = true ∨ node.children ≠ []) :
    preferSelfClosingEnter ctx node = (node, ctx) ∧
    astAddSelfClosingEnter ctx node = (node, ctx) := by
  have hp : preferSelfClosingCond node = false := by
    rcases h with h | h <;> simp [preferSelfClosingCond, h]
  have ha : astAddSelfClosingCond node = false := by
    rcases h with h | h <;> simp [astAddSelfClosingCond, h]
  simp [preferSelfClosingEnter, astAddSelfClosingEnter, hp, ha]

/-- Witness for C4 at the already self-closing `<br />` node. -/
theorem claim_C4_witness :
    (brClosedNode.selfClosing = true ∨ brClosedNode.children ≠ []) ∧
    preferSelfClosingEnter ⟨true, []⟩ brClosedNode =
      (brClosedNode, ⟨true, []⟩) ∧
    astAddSelfClosingEnter ⟨true, []⟩ brClosedNode =
      (brClosedNode, ⟨true, []⟩) := by
  have h : brClosedNode.selfClosing = true ∨ brClosedNode.children ≠ [] :=
    Or.inl (by decide)
  obtain ⟨h1, h2⟩ := claim_C4_noop ⟨true, []⟩ brClosedNode h
  exact ⟨h, h1, h2⟩

/-- C5: every fix suggestion either self-closing rule emits has an `old`
field equal to the node currently addressed by the Path, i.e. the rule's
input node, in both describe-only and apply-fixes mode. -/
theorem claim_C5_old_is_node (mode : Bool) (node : HNode)
    (d : Diagnostic) (p : FixSuggestion)
    (hd : d ∈ (preferSelfClosingEnter ⟨mode, []⟩ node).2.diagnostics ∨
      d ∈ (astAddSelfClosingEnter ⟨mode, []⟩ node).2.diagnostics)
    (hp : d.fix = some p) :
    p.old = node := by
  have h := emittedDiag_fix_shape mode node d hd
  rw [hp] at h
  injection h with h
  subst h
  rfl

/-- Witness for C5 at the `<img>` node and the diagnostic
`html/preferSelfClosing` emits on it. -/
theorem claim_C5_witness :
    (⟨"HTML_PREFER_SELF_CLOSING", true,
      some ⟨imgNode, imgNode.withSelfClosing true⟩⟩ : Diagnostic) ∈
        (preferSelfClosingEnter ⟨true, []⟩ imgNode).2.diagnostics ∧
    (⟨imgNode, imgNode.withSelfClosing true⟩ : FixSuggestion).old =
      imgNode :=
  ⟨by decide,
    claim_C5_old_is_node true imgNode
      ⟨"HTML_PREFER_SELF_CLOSING", true,
        some ⟨imgNode, imgNode.withSelfClosing true⟩⟩
      ⟨imgNode, imgNode.withSelfClosing true⟩
      (Or.inl (by decide)) rfl⟩

/-- C6: the `TSTypeParameter` tokenize function equals, for every node and
every recursive tokenizer, the concatenation the claim describes: the name,
then exactly when a constraint is present a space, `extends`, a space and the
constraint tokenized with the node as parent, then exactly when a default is
present a space, `=`, a space and the default tokenized with the node as
parent; being a Lean function of its arguments it is pure and mutates no
state. -/
theorem claim_C6_TSTypeParameter {α : Type}
    (tk : α → TSTypeParameterNode α → Token)
    (node : TSTypeParameterNode α) :
    TSTypeParameterToken tk node = TSTypeParameterClaimed tk node := by
  cases hc : node.constraint <;> cases hd : node.default <;>
    simp [TSTypeParameterToken, TSTypeParameterClaimed, hc, hd]

/-- C7: the rule enter callbacks and the `TSTypeParameter` tokenize function
are deterministic: equal contexts and structurally equal nodes produce equal
result nodes and equal diagnostic sequences, and componentwise-equal
type-parameter nodes tokenize identically under the same recursive
tokenizer. -/
theorem claim_C7_determinism {α : Type}
    (ctx1 ctx2 : RuleContext) (n1 n2 : HNode)
    (tk : α → TSTypeParameterNode α → Token)
    (m1 m2 : TSTypeParameterNode α)
    (hctx : ctx1 = ctx2)
    (hn : HNode.structEq n1 n2 = true)
    (hm : m1.name = m2.name ∧ m1.constraint = m2.constraint ∧
      m1.default = m2.default) :
    preferSelfClosingEnter ctx1 n1 = preferSelfClosingEnter ctx2 n2 ∧
    astAddSelfClosingEnter ctx1 n1 = astAddSelfClosingEnter ctx2 n2 ∧
    TSTypeParameterToken tk m1 = TSTypeParameterToken tk m2 := by
  obtain rfl := HNode.structEq_sound n1 n2 hn
  subst hctx
  obtain ⟨h1, h2, h3⟩ := hm
  obtain ⟨nm1, c1, d1⟩ := m1
  obtain ⟨nm2, c2, d2⟩ := m2
  simp only at h1 h2 h3
  subst h1 h2 h3
  exact ⟨rfl, rfl, rfl⟩

/-- Witness for C7 on two structurally equal copies of the `<div>` node and
two componentwise-equal type-parameter nodes. -/
theorem claim_C7_witness :
    preferSelfClosingEnter ⟨true, []⟩ divNode =
      preferSelfClosingEnter ⟨true, []⟩ divNode ∧
    astAddSelfClosingEnter ⟨true, []⟩ divNode =
      astAddSelfClosingEnter ⟨true, []⟩ divNode ∧
    TSTypeParameterToken (fun (_ : Unit) _ => Token.space)
        ⟨"T", none, none⟩ =
      TSTypeParameterToken (fun (_ : Unit) _ => Token.space)
        ⟨"T", none, none⟩ :=
  claim_C7_determinism ⟨true, []⟩ ⟨true, []⟩ divNode divNode
    (fun (_ : Unit) _ => Token.space) ⟨"T", none, none⟩ ⟨"T", none, none⟩
    rfl (by decide) ⟨rfl, rfl, rfl⟩

/-- C8: in both self-closing rules the proposed `fixed` node is exactly the
`old` node with `selfClosing` set to true: type, tag name, spread-copied
fields and the children list are carried over unchanged (the children are the
very same list value, which is how structural sharing appears under value
semantics). -/
theorem claim_C8_frame (mode : Bool) (node : HNode)
    (d : Diagnostic) (p : FixSuggestion)
    (hd : d ∈ (preferSelfClosingEnter ⟨mode, []⟩ node).2.diagnostics ∨
      d ∈ (astAddSelfClosingEnter ⟨mode, []⟩ node).2.diagnostics)
    (hp : d.fix = some p) :
    p.fixed = p.old.withSelfClosing true ∧
    p.fixed.children = p.old.children ∧
    p.fixed.type = p.old.type ∧
    p.fixed.name = p.old.name ∧
    p.fixed.attrs = p.old.attrs ∧
    p.fixed.selfClosing = true := by
  have h := emittedDiag_fix_shape mode node d hd
  rw [hp] at h
  injection h with h
  subst h
  cases node with
  | mk t n s a c => exact ⟨rfl, rfl, rfl, rfl, rfl, rfl⟩

/-- Witness for C8 at the `<div></div>` node and the suggestion
`astAddSelfClosing` emits on it. -/
theorem claim_C8_witness :
    (⟨divNode, divNode.withSelfClosing true⟩ : FixSuggestion).fixed =
      (⟨divNode,
        divNode.withSelfClosing true⟩ : FixSuggestion).old.withSelfClosing
        true ∧
    (⟨divNode,
      divNode.withSelfClosing true⟩ : FixSuggestion).fixed.children =
      (⟨divNode, divNode.withSelfClosing true⟩ : FixSuggestion).old.children :=
  ⟨(claim_C8_frame true divNode
      ⟨"AST_ADD_SELF_CLOSING", true,
        some ⟨divNode, divNode.withSelfClosing true⟩⟩
      ⟨divNode, divNode.withSelfClosing true⟩
      (Or.inr (by decide)) rfl).1,
   (claim_C8_frame true divNode
      ⟨"AST_ADD_SELF_CLOSING", true,
        some ⟨divNode, divNode.withSelfClosing true⟩⟩
      ⟨divNode, divNode.withSelfClosing true⟩
      (Or.inr (by decide)) rfl).2.1⟩

/-- C9: the step-4 guard of `main` negates the un-awaited Promise returned by
`isNewVersion`, so it is false for every registry status code and the
version-already-exists `raiseError` call is unreachable; the second conjunct
shows that negating the resolved boolean instead would fire on a 200
response. -/
theorem claim_C9_unreachable :
    (∀ statusCode : Nat, mainStep4Raises statusCode = false) ∧
    (!(isNewVersionResolved 200)) = true := by
  exact ⟨fun _ => rfl, rfl⟩

/-- C10: every `raiseError` call reports the fixed literal regardless of the
`message` argument, and the process exits exactly when `keepAlive` is
false. -/
theorem claim_C10_raiseError (m1 m2 : String) (keepAlive : Bool) :
    raiseError m1 keepAlive = raiseError m2 keepAlive ∧
    (raiseError m1 keepAlive).reportedText =
      "Changelogs must be generated on the main branch." ∧
    ((raiseError m1 keepAlive).processExited = true ↔
      keepAlive = false) := by
  refine ⟨rfl, rfl, ?_⟩
  cases keepAlive <;> simp [raiseError]
